import Mathlib

/-!
Shallow embedding of the pidog-inneo behavior controller
(`start/pidog_inneo.py`, `start/3_patrol.py`, `start/angewinkelt.py`,
`start/hinlegen.py`) together with theorems settling the spec claims.

Modelling conventions:
* wall-clock times and durations are rationals (`ℚ`);
* a head pose is a list of integer servo angles (`List Int`), matching every
  pose literal in the sources;
* the argument of the patched `servo_move` may fail Python's `list(pose)`
  conversion; it is modelled as `Option (List Int)` where `none` stands for a
  value on which `list(pose)` raises;
* threads are modelled by explicit state passing: each operation maps a
  `HeadState` to a new `HeadState` plus a description of the hardware effect.
-/

/-! ## Head anti-jitter filter (`pidog_inneo.py`, lines 101-204) -/

abbrev Pose := List Int

def HEAD_DEADBAND : Int := 4

def HEAD_MIN_INTERVAL : ℚ := 1/10

def HEAD_SUPPRESS_AFTER_BODY_ACTION : ℚ := 4/5

def HEAD_SUPPRESS_AFTER_BODY_ACTION_SIT : ℚ := 11/5

def SIT_HEAD_TILT_POSE : Pose := [0, 0, -20]

def SIT_HEAD_TILT_SPEED : Int := 25

/-- The module-level head-filter globals `_head_last_sent_pose`,
`_head_last_sent_t`, `_head_pending_pose`, `_head_pending_speed`,
`_head_suppress_until`. -/
structure HeadState where
  lastSentPose : Option Pose
  lastSentT : ℚ
  pendingPose : Option Pose
  pendingSpeed : Option Int
  suppressUntil : ℚ
deriving DecidableEq, Repr

/-- Initial values of the head-filter globals (lines 103-108). -/
def initHeadState : HeadState :=
  { lastSentPose := none, lastSentT := 0, pendingPose := none,
    pendingSpeed := none, suppressUntil := 0 }

/-- `head_suppress(seconds)` (lines 111-115):
`_head_suppress_until = max(_head_suppress_until, time.time() + seconds)`. -/
def head_suppress (st : HeadState) (now : ℚ) (seconds : ℚ) : HeadState :=
  { st with suppressUntil := max st.suppressUntil (now + seconds) }

/-- Outcome of one call to the patched `filtered_servo_move`:
`bypass` = the original `servo_move` was called directly (hardware write),
`dropped` = the call returned without touching the pending slot,
`pended` = the request was stored as the (single) pending pose. -/
inductive SubmitResult
  | bypass
  | dropped
  | pended
deriving DecidableEq, Repr

/-- `filtered_servo_move(pose, speed)` (lines 169-196).  `pose = none` models an
argument on which `list(pose)` raises, in which case the original hardware
`servo_move` is invoked immediately (line 175). -/
def filtered_servo_move (st : HeadState) (now : ℚ) (pose : Option Pose)
    (speed : Option Int) : SubmitResult × HeadState :=
  match pose with
  | none => (.bypass, st)
  | some target =>
    if now < st.suppressUntil then (.dropped, st)
    else
      match st.lastSentPose with
      | some last =>
        if last.length = target.length then
          if (target.zip last).all (fun q => decide (q.1 = q.2)) then (.dropped, st)
          else if (target.zip last).all (fun q => decide (|q.1 - q.2| ≤ HEAD_DEADBAND)) then
            (.dropped, st)
          else (.pended, { st with pendingPose := some target, pendingSpeed := speed })
        else (.pended, { st with pendingPose := some target, pendingSpeed := speed })
      | none => (.pended, { st with pendingPose := some target, pendingSpeed := speed })

/-- One iteration of the `_sender` dispatch thread (lines 135-167) at wall-clock
time `now`; `sendT` is the (later) time read after the hardware write when
updating `_head_last_sent_t`.  The first component is the hardware write
performed, if any. -/
def senderTick (st : HeadState) (now sendT : ℚ) : Option (Pose × Option Int) × HeadState :=
  if st.suppressUntil ≤ now then
    match st.pendingPose with
    | some p =>
      if HEAD_MIN_INTERVAL ≤ now - st.lastSentT then
        (some (p, st.pendingSpeed),
          { st with pendingPose := none, pendingSpeed := none,
                    lastSentPose := some p, lastSentT := sendT })
      else (none, st)
    | none => (none, st)
  else (none, st)

/-! ## Theorems about the head filter -/

/-- Auxiliary: whenever `filtered_servo_move` answers `pended`, the resulting
state is the input state with the pending slot overwritten by the request. -/
theorem filtered_pended (st st' : HeadState) (t : ℚ) (p : Pose) (s : Option Int)
    (h : filtered_servo_move st t (some p) s = (.pended, st')) :
    st' = { st with pendingPose := some p, pendingSpeed := s } := by
  simp only [filtered_servo_move] at h
  repeat' split at h
  all_goals simp_all

/-- C1: the spec says `head_suppress(seconds)` with `seconds ≤ 0` collapses
`suppress_until` to `now` (immediate release), and the inline comment in
`safe_sit` relies on that ("allow this one command to be sent by briefly
un-suppressing").  The code computes `max(current, now + seconds)`, so inside
an active window (here: right after `head_suppress(2.2)` at time 10)
`head_suppress(0.0)` leaves `suppress_until` at `12.2`, not `10`, and the
follow-up head tilt submitted by `safe_sit` is still dropped. -/
theorem C1_suppress_zero_not_released :
    (head_suppress (head_suppress initHeadState 10 HEAD_SUPPRESS_AFTER_BODY_ACTION_SIT)
      10 0).suppressUntil = 61/5 ∧
    (head_suppress (head_suppress initHeadState 10 HEAD_SUPPRESS_AFTER_BODY_ACTION_SIT)
      10 0).suppressUntil ≠ 10 ∧
    filtered_servo_move
      (head_suppress (head_suppress initHeadState 10 HEAD_SUPPRESS_AFTER_BODY_ACTION_SIT) 10 0)
      10 (some SIT_HEAD_TILT_POSE) (some SIT_HEAD_TILT_SPEED)
      = (.dropped,
         head_suppress (head_suppress initHeadState 10 HEAD_SUPPRESS_AFTER_BODY_ACTION_SIT) 10 0) := by
  have h1 : (head_suppress (head_suppress initHeadState 10 HEAD_SUPPRESS_AFTER_BODY_ACTION_SIT)
      10 0).suppressUntil = 61/5 := by
    simp only [head_suppress, initHeadState, HEAD_SUPPRESS_AFTER_BODY_ACTION_SIT]
    norm_num [max_def]
  have hlt : (10:ℚ) < 61/5 := by norm_num
  refine ⟨h1, by rw [h1]; norm_num, ?_⟩
  simp [filtered_servo_move, h1, hlt]

/-- C2: while `now < suppress_until`, a `filtered_servo_move` call drops the
request with no state change and no hardware write, for every pose (novel,
duplicate or in-deadband alike), and a `_sender` iteration commits nothing. -/
theorem C2_suppression_exclusive (st : HeadState) (t sendT : ℚ) (p : Pose)
    (s : Option Int) (h : t < st.suppressUntil) :
    filtered_servo_move st t (some p) s = (.dropped, st) ∧
    senderTick st t sendT = (none, st) := by
  constructor
  · simp [filtered_servo_move, h]
  · simp [senderTick, not_le.mpr h]

/-- Concrete instance of `C2_suppression_exclusive`. -/
def exSupState : HeadState :=
  { lastSentPose := none, lastSentT := 0, pendingPose := some [9, 9, 9],
    pendingSpeed := none, suppressUntil := 5 }

theorem C2_witness :
    (1:ℚ) < exSupState.suppressUntil ∧
    (filtered_servo_move exSupState 1 (some [50, 0, 0]) none = (.dropped, exSupState) ∧
     senderTick exSupState 1 2 = (none, exSupState)) :=
  ⟨by decide, C2_suppression_exclusive exSupState 1 2 [50, 0, 0] none (by decide)⟩

/-- C3: latest-wins coalescing.  If three submissions all get pended (none
suppressed, none dropped as duplicate or in-deadband) before the dispatch
thread runs, the pending slot holds only the third pose, and the next `_sender`
iteration (once unsuppressed and past the rate limit) writes exactly the third
pose and speed to hardware; the first two are never written (a `pended`
submission performs no write by construction). -/
theorem C3_latest_wins (st0 st1 st2 st3 : HeadState) (t1 t2 t3 now sendT : ℚ)
    (p1 p2 p3 : Pose) (s1 s2 s3 : Option Int)
    (e1 : filtered_servo_move st0 t1 (some p1) s1 = (.pended, st1))
    (e2 : filtered_servo_move st1 t2 (some p2) s2 = (.pended, st2))
    (e3 : filtered_servo_move st2 t3 (some p3) s3 = (.pended, st3))
    (hsup : st3.suppressUntil ≤ now)
    (hgap : HEAD_MIN_INTERVAL ≤ now - st3.lastSentT) :
    st3.pendingPose = some p3 ∧ st3.pendingSpeed = s3 ∧
    (senderTick st3 now sendT).1 = some (p3, s3) := by
  have h3 := filtered_pended _ _ _ _ _ e3
  subst h3
  refine ⟨rfl, rfl, ?_⟩
  simp [senderTick, hsup, hgap]

/-- Intermediate states of the coalescing scenario
`submit([10,0,0]); submit([11,0,0]); submit([50,0,0])`. -/
def exC3St1 : HeadState := { initHeadState with pendingPose := some [10, 0, 0] }

def exC3St2 : HeadState := { initHeadState with pendingPose := some [11, 0, 0] }

def exC3St3 : HeadState := { initHeadState with pendingPose := some [50, 0, 0] }

theorem C3_witness :
    filtered_servo_move initHeadState 0 (some [10, 0, 0]) none = (.pended, exC3St1) ∧
    filtered_servo_move exC3St1 0 (some [11, 0, 0]) none = (.pended, exC3St2) ∧
    filtered_servo_move exC3St2 0 (some [50, 0, 0]) none = (.pended, exC3St3) ∧
    exC3St3.suppressUntil ≤ (1:ℚ) ∧ HEAD_MIN_INTERVAL ≤ (1:ℚ) - exC3St3.lastSentT ∧
    (exC3St3.pendingPose = some [50, 0, 0] ∧ exC3St3.pendingSpeed = none ∧
     (senderTick exC3St3 1 1).1 = some ([50, 0, 0], none)) :=
  ⟨by decide, by decide, by decide, by decide,
   by norm_num [exC3St3, initHeadState, HEAD_MIN_INTERVAL],
   C3_latest_wins initHeadState exC3St1 exC3St2 exC3St3 0 0 0 1 1
     [10, 0, 0] [11, 0, 0] [50, 0, 0] none none none
     (by decide) (by decide) (by decide) (by decide)
     (by norm_num [exC3St3, initHeadState, HEAD_MIN_INTERVAL])⟩

/-- C9: when the pose argument cannot be converted to a list, the patched
`filtered_servo_move` calls the original hardware `servo_move` at once
(`bypass`), skipping suppression, duplicate/deadband checks and the dispatch
thread; the filter state (including any active suppression window) is
untouched, so the write happens even while suppressed. -/
theorem C9_unconvertible_pose_bypasses (st : HeadState) (now : ℚ) (s : Option Int) :
    filtered_servo_move st now none s = (.bypass, st) := rfl

/-- C10: `head_suppress` never decreases `suppress_until` (for any `seconds`,
including `seconds ≤ 0`), and no other head-filter operation modifies it, so an
active window can only be extended, never shortened or released early. -/
theorem C10_suppress_until_monotone (st : HeadState) (now seconds sendT : ℚ)
    (pose : Option Pose) (speed : Option Int) :
    st.suppressUntil ≤ (head_suppress st now seconds).suppressUntil ∧
    ((filtered_servo_move st now pose speed).2).suppressUntil = st.suppressUntil ∧
    ((senderTick st now sendT).2).suppressUntil = st.suppressUntil := by
  refine ⟨le_max_left _ _, ?_, ?_⟩
  · cases pose with
    | none => rfl
    | some target =>
      simp only [filtered_servo_move]
      repeat' split
      all_goals rfl
  · simp only [senderTick]
    repeat' split
    all_goals rfl

/-! ## Patrol behavior (`3_patrol.py`)

The `run(dog, stop_evt)` loop is embedded as a fuel-indexed step function.
Inputs that the real loop obtains from the environment become oracle streams:
`stops k` is the result of the `k`-th `should_stop()` call, `dists k` the
(rounded) result of the `k`-th `read_distance_best_effort` call, and `ticks k`
the result of the `k`-th evaluation of `now - last_tick >= TICK_SEC`.
`standAvail` tells whether `legs_angle_calculation` succeeded (line 93), i.e.
whether `stand` is not `None`.  Each emitted hardware action is annotated with
the number of stop checks and distance reads consumed before it was issued.
`ENABLE_BARK` is `False` in the source, so the bark block never runs and is
omitted.  Status prints and LED colors carry no servo effect; LED mode changes
are kept as `.led` events.  The third component of the result is `true` iff the
loop exited by one of its `break` statements (rather than running out of
fuel). -/

def DANGER_DISTANCE : ℚ := 18

def FORWARD_SPEED : Int := 98

inductive PAct
  | halt
  | step
  | alert
  | led
  | standUp
deriving DecidableEq, Repr

/-- Oracle-consumption counters: stop checks, distance reads, tick checks. -/
structure PSt where
  sIdx : Nat
  dIdx : Nat
  tIdx : Nat
deriving DecidableEq, Repr

/-- An emitted action, annotated with the number of `should_stop()` calls and
distance reads consumed when it was issued. -/
abbrev PEv := Nat × Nat × PAct

/-- The danger wait sub-loop (lines 166-183): poll distance until a sample
`>= DANGER_DISTANCE` arrives (break), halting on invalid samples, or until a
stop is observed (halt and break). -/
def waitLoop (stops : Nat → Bool) (dists : Nat → ℚ) :
    Nat → PSt → List PEv × PSt × Bool
  | 0, st => ([], st, false)
  | fuel+1, st =>
    if stops st.sIdx then
      ([(st.sIdx + 1, st.dIdx, .halt)], ⟨st.sIdx + 1, st.dIdx, st.tIdx⟩, true)
    else
      if dists st.dIdx ≤ 0 then
        let r := waitLoop stops dists fuel ⟨st.sIdx + 1, st.dIdx + 1, st.tIdx⟩
        ((st.sIdx + 1, st.dIdx + 1, .halt) :: r.1, r.2)
      else if dists st.dIdx < DANGER_DISTANCE then
        waitLoop stops dists fuel ⟨st.sIdx + 1, st.dIdx + 1, st.tIdx⟩
      else
        ([], ⟨st.sIdx + 1, st.dIdx + 1, st.tIdx⟩, true)

/-- The main patrol loop (lines 101-215). -/
def patrolLoop (stops : Nat → Bool) (dists : Nat → ℚ) (ticks : Nat → Bool)
    (standAvail : Bool) : Nat → PSt → List PEv × PSt × Bool
  | 0, st => ([], st, false)
  | fuel+1, st =>
    let s0 := st.sIdx
    let d0 := st.dIdx
    let t0 := st.tIdx
    -- line 103: stop check at the top of every iteration
    if stops s0 then
      ([(s0 + 1, d0, .halt)], ⟨s0 + 1, d0, t0⟩, true)
    else
      -- line 108: distance read
      if dists d0 ≤ 0 then
        -- lines 122-126: invalid sample, halt and retry
        let r := patrolLoop stops dists ticks standAvail fuel ⟨s0 + 1, d0 + 1, t0⟩
        ((s0 + 1, d0 + 1, .halt) :: r.1, r.2)
      else if dists d0 < DANGER_DISTANCE then
        -- line 131: immediate halt on danger
        if stops (s0 + 1) then
          -- lines 133-134: break (the halt above was already issued)
          ([(s0 + 1, d0 + 1, .halt)], ⟨s0 + 2, d0 + 1, t0⟩, true)
        else
          -- line 138: LED mode; line 142: alert stance guarded by
          -- `stand is not None and not should_stop()` (short-circuit)
          let aRes : List PEv × Nat :=
            if standAvail then
              if stops (s0 + 2) then ([], s0 + 3)
              else ([(s0 + 3, d0 + 1, PAct.alert)], s0 + 3)
            else ([], s0 + 2)
          -- line 150: stop check after the stance
          if stops aRes.2 then
            ((s0 + 1, d0 + 1, .halt) :: (s0 + 2, d0 + 1, .led) :: aRes.1
               ++ [(aRes.2 + 1, d0 + 1, .halt)], ⟨aRes.2 + 1, d0 + 1, t0⟩, true)
          else
            -- lines 166-183: wait until safe again, then resume the outer loop
            let w := waitLoop stops dists fuel ⟨aRes.2 + 1, d0 + 1, t0⟩
            if w.2.2 then
              let r := patrolLoop stops dists ticks standAvail fuel w.2.1
              ((s0 + 1, d0 + 1, .halt) :: (s0 + 2, d0 + 1, .led) :: aRes.1
                 ++ w.1 ++ r.1, r.2)
            else
              ((s0 + 1, d0 + 1, .halt) :: (s0 + 2, d0 + 1, .led) :: aRes.1
                 ++ w.1, w.2.1, false)
      else
        -- safe branch, line 187
        if stops (s0 + 1) then
          ([(s0 + 2, d0 + 1, .halt)], ⟨s0 + 2, d0 + 1, t0⟩, true)
        else
          -- line 192: LED; line 198: tick gate
          if ticks t0 then
            -- line 199
            if stops (s0 + 2) then
              ([(s0 + 2, d0 + 1, .led), (s0 + 3, d0 + 1, .halt)],
               ⟨s0 + 3, d0 + 1, t0 + 1⟩, true)
            else
              -- line 203: one forward step; line 209
              if stops (s0 + 3) then
                ([(s0 + 2, d0 + 1, .led), (s0 + 3, d0 + 1, .step),
                  (s0 + 4, d0 + 1, .halt)], ⟨s0 + 4, d0 + 1, t0 + 1⟩, true)
              else
                let r := patrolLoop stops dists ticks standAvail fuel
                  ⟨s0 + 4, d0 + 1, t0 + 1⟩
                ((s0 + 2, d0 + 1, .led) :: (s0 + 3, d0 + 1, .step) :: r.1, r.2)
          else
            let r := patrolLoop stops dists ticks standAvail fuel
              ⟨s0 + 2, d0 + 1, t0 + 1⟩
            ((s0 + 2, d0 + 1, .led) :: r.1, r.2)

/-- `run` (lines 65-218): initial stand pose, the loop, and - whenever the loop
exits by `break` - the unconditional final `hard_stop()` of line 218. -/
def patrolRun (stops : Nat → Bool) (dists : Nat → ℚ) (ticks : Nat → Bool)
    (standAvail : Bool) (fuel : Nat) : List PEv × Bool :=
  let r := patrolLoop stops dists ticks standAvail fuel ⟨0, 0, 0⟩
  ((0, 0, .standUp) :: r.1
     ++ (if r.2.2 then [(r.2.1.sIdx, r.2.1.dIdx, .halt)] else []), r.2.2)

/-- The stop flag is a `threading.Event`: once set it stays set. -/
def MonoStops (stops : Nat → Bool) : Prop :=
  ∀ j k, j ≤ k → stops j = true → stops k = true

/-- Every action the danger wait sub-loop issues is a halt (it never steps,
never moves legs, never touches the LED). -/
theorem waitLoop_halts (stops : Nat → Bool) (dists : Nat → ℚ) :
    ∀ fuel st ev, ev ∈ (waitLoop stops dists fuel st).1 → ev.2.2 = PAct.halt := by
  intro fuel
  induction fuel with
  | zero => intro st ev h; simp [waitLoop] at h
  | succ n ih =>
    intro st ev h
    simp only [waitLoop] at h
    split at h
    · simp at h
      subst h
      rfl
    · split at h
      · rcases List.mem_cons.mp h with h1 | h2
        · subst h1
          rfl
        · exact ih _ _ h2
      · split at h
        · exact ih _ _ h
        · simp at h

/-- Every forward step the patrol loop issues was immediately preceded by a
distance read (its last consumed sample) whose value was at or above
`DANGER_DISTANCE`. -/
theorem patrolLoop_step_safe (stops : Nat → Bool) (dists : Nat → ℚ)
    (ticks : Nat → Bool) (sa : Bool) :
    ∀ fuel st ev, ev ∈ (patrolLoop stops dists ticks sa fuel st).1 →
      ev.2.2 = PAct.step → 1 ≤ ev.2.1 ∧ DANGER_DISTANCE ≤ dists (ev.2.1 - 1) := by
  intro fuel
  induction fuel with
  | zero => intro st ev h hstep; simp [patrolLoop] at h
  | succ n ih =>
    intro st ev h hstep
    simp only [patrolLoop] at h
    repeat' split at h
    all_goals
      try simp only [List.mem_cons, List.mem_append, List.mem_singleton,
        List.not_mem_nil, or_false, false_or] at h
    all_goals repeat' rcases h with h | h
    all_goals
      first
      | exact ih _ _ h hstep
      | (have hw := waitLoop_halts stops dists _ _ _ h
         rw [hstep] at hw
         exact absurd hw (by simp))
      | (simp at hstep; done)
      | exact ⟨Nat.le_add_left 1 _, by simpa using le_of_not_lt (by assumption)⟩

/-- Auxiliary: a stop check that returned `false` cannot lie at or above an
index where the (monotone) stop flag was already set. -/
theorem mono_absurd {stops : Nat → Bool} {k : Nat} (hm : MonoStops stops)
    (hk : stops k = true) {j : Nat} (hj : ¬ stops j = true) (hle : k ≤ j)
    {C : Prop} : C :=
  absurd (hm k j hle hk) hj

/-- Once the (monotone) stop flag is set and a stop check has index at least
`k`, every action the patrol loop issues after that check is a halt: no
forward step, no alert stance, no LED change. -/
theorem patrolLoop_stop_halts (stops : Nat → Bool) (dists : Nat → ℚ)
    (ticks : Nat → Bool) (sa : Bool) (k : Nat)
    (hm : MonoStops stops) (hk : stops k = true) :
    ∀ fuel st ev, ev ∈ (patrolLoop stops dists ticks sa fuel st).1 →
      k < ev.1 → ev.2.2 = PAct.halt := by
  intro fuel
  induction fuel with
  | zero => intro st ev h hke; simp [patrolLoop] at h
  | succ n ih =>
    intro st ev h hke
    simp only [patrolLoop] at h
    repeat' split at h
    all_goals
      try simp only [List.mem_cons, List.mem_append, List.mem_singleton,
        List.not_mem_nil, or_false, false_or] at h
    all_goals repeat' rcases h with h | h
    all_goals try dsimp only at hke
    all_goals
      first
      | exact ih _ _ h hke
      | exact waitLoop_halts stops dists _ _ _ h
      | rfl
      | (apply mono_absurd (j := st.sIdx + 2) hm hk
         assumption
         omega)
      | (apply mono_absurd (j := st.sIdx + 1) hm hk
         assumption
         omega)

/-- C4: with a monotone stop flag, (i) every action of a patrol run issued
after a stop check with index above an already-set index `k` is a halt (no
further forward step, stance or LED action); (ii) an iteration whose top-of-
loop stop check observes the flag immediately issues a hardware halt and exits
(within one tick); (iii) every run that terminates ends with the unconditional
final `hard_stop()` of line 218. -/
theorem C4_stop_latency (stops : Nat → Bool) (dists : Nat → ℚ)
    (ticks : Nat → Bool) (sa : Bool) (fuel k : Nat) (st : PSt)
    (hm : MonoStops stops) (hk : stops k = true) (hst : stops st.sIdx = true) :
    (∀ ev ∈ (patrolRun stops dists ticks sa fuel).1, k < ev.1 → ev.2.2 = PAct.halt) ∧
    patrolLoop stops dists ticks sa (fuel + 1) st
      = ([(st.sIdx + 1, st.dIdx, PAct.halt)], ⟨st.sIdx + 1, st.dIdx, st.tIdx⟩, true) ∧
    ((patrolRun stops dists ticks sa fuel).2 = true →
      ∃ s d, (patrolRun stops dists ticks sa fuel).1.getLast? = some (s, d, PAct.halt)) := by
  refine ⟨?_, ?_, ?_⟩
  · intro ev hev hke
    simp only [patrolRun] at hev
    rcases List.mem_cons.mp hev with h1 | h1
    · subst h1; omega
    · rcases List.mem_append.mp h1 with h2 | h2
      · exact patrolLoop_stop_halts stops dists ticks sa k hm hk _ _ _ h2 hke
      · split at h2
        · simp at h2; subst h2; rfl
        · simp at h2
  · simp [patrolLoop, hst]
  · intro hdone
    have hd : (patrolLoop stops dists ticks sa fuel ⟨0, 0, 0⟩).2.2 = true := hdone
    refine ⟨(patrolLoop stops dists ticks sa fuel ⟨0, 0, 0⟩).2.1.sIdx,
      (patrolLoop stops dists ticks sa fuel ⟨0, 0, 0⟩).2.1.dIdx, ?_⟩
    simp only [patrolRun, hd, if_true]
    rw [List.getLast?_append_cons]
    rfl

/-- Concrete streams for the C4 scenario: the flag is set from check 1 on,
distance is always safe, every tick fires. -/
def exStops : Nat → Bool := fun j => decide (1 ≤ j)

def exDistsSafe : Nat → ℚ := fun _ => 100

def exTicks : Nat → Bool := fun _ => true

theorem exStops_mono : MonoStops exStops := by
  intro j k hjk hj
  simp only [exStops, decide_eq_true_eq] at hj ⊢
  omega

theorem C4_witness :
    MonoStops exStops ∧ exStops 1 = true ∧ exStops 1 = true ∧
    ((∀ ev ∈ (patrolRun exStops exDistsSafe exTicks true 5).1, 1 < ev.1 → ev.2.2 = PAct.halt) ∧
     patrolLoop exStops exDistsSafe exTicks true 6 ⟨1, 1, 0⟩
       = ([(2, 1, PAct.halt)], ⟨2, 1, 0⟩, true) ∧
     ((patrolRun exStops exDistsSafe exTicks true 5).2 = true →
       ∃ s d, (patrolRun exStops exDistsSafe exTicks true 5).1.getLast? = some (s, d, PAct.halt))) :=
  ⟨exStops_mono, rfl, rfl,
   C4_stop_latency exStops exDistsSafe exTicks true 5 1 ⟨1, 1, 0⟩ exStops_mono rfl rfl⟩

/-- C5: when an iteration's distance sample is valid but below
`DANGER_DISTANCE`, (i) the very next hardware action is a halt; (ii) every
forward step anywhere in the loop is justified by its immediately preceding
sample being `>= DANGER_DISTANCE` (so no step is issued between a danger
sample and the next safe sample); (iii) the danger wait sub-loop returns
control to the walking loop as soon as a sample `>= DANGER_DISTANCE` arrives
(safe walking resumes); (iv) in the safe branch with no stop observed and a
due tick, a forward step is in fact issued. -/
theorem C5_danger_monotonicity (stops : Nat → Bool) (dists : Nat → ℚ)
    (ticks : Nat → Bool) (sa : Bool) (fuel : Nat) (st : PSt)
    (hstop : stops st.sIdx = false)
    (hpos : 0 < dists st.dIdx)
    (hdng : dists st.dIdx < DANGER_DISTANCE) :
    (patrolLoop stops dists ticks sa (fuel + 1) st).1.head?
      = some (st.sIdx + 1, st.dIdx + 1, PAct.halt) ∧
    (∀ fuel' st' ev, ev ∈ (patrolLoop stops dists ticks sa fuel' st').1 →
       ev.2.2 = PAct.step → 1 ≤ ev.2.1 ∧ DANGER_DISTANCE ≤ dists (ev.2.1 - 1)) ∧
    (∀ fuel' st', stops st'.sIdx = false → DANGER_DISTANCE ≤ dists st'.dIdx →
       waitLoop stops dists (fuel' + 1) st'
         = ([], ⟨st'.sIdx + 1, st'.dIdx + 1, st'.tIdx⟩, true)) ∧
    (∀ fuel' st', stops st'.sIdx = false → stops (st'.sIdx + 1) = false →
       stops (st'.sIdx + 2) = false → DANGER_DISTANCE ≤ dists st'.dIdx →
       ticks st'.tIdx = true →
       (st'.sIdx + 3, st'.dIdx + 1, PAct.step)
         ∈ (patrolLoop stops dists ticks sa (fuel' + 1) st').1) := by
  refine ⟨?_, patrolLoop_step_safe stops dists ticks sa, ?_, ?_⟩
  · simp only [patrolLoop, hstop, Bool.false_eq_true, if_false,
      not_le.mpr hpos, hdng, if_true]
    repeat' split
    all_goals rfl
  · intro fuel' st' h1 h2
    have h0 : ¬ dists st'.dIdx ≤ 0 :=
      not_le.mpr (lt_of_lt_of_le (by norm_num [DANGER_DISTANCE]) h2)
    simp [waitLoop, h1, h0, not_lt.mpr h2]
  · intro fuel' st' h1 h2 h3 hsafe htick
    have h0 : ¬ dists st'.dIdx ≤ 0 :=
      not_le.mpr (lt_of_lt_of_le (by norm_num [DANGER_DISTANCE]) hsafe)
    simp only [patrolLoop, h1, h2, h3, htick, Bool.false_eq_true, if_false,
      if_true, h0, not_lt.mpr hsafe]
    split
    all_goals simp

/-- Distance stream of the danger scenario `[40, 35, 12, 12, 20]` (safe
afterwards). -/
def exDistsDanger : Nat → ℚ := fun k => [40, 35, 12, 12, 20].getD k 100

def exNoStops : Nat → Bool := fun _ => false

theorem C5_witness :
    exNoStops 2 = false ∧ (0:ℚ) < exDistsDanger 2 ∧ exDistsDanger 2 < DANGER_DISTANCE ∧
    ((patrolLoop exNoStops exDistsDanger exTicks false 8 ⟨2, 2, 2⟩).1.head?
       = some (3, 3, PAct.halt) ∧
     (∀ fuel' st' ev, ev ∈ (patrolLoop exNoStops exDistsDanger exTicks false fuel' st').1 →
        ev.2.2 = PAct.step → 1 ≤ ev.2.1 ∧ DANGER_DISTANCE ≤ exDistsDanger (ev.2.1 - 1)) ∧
     (∀ fuel' st', exNoStops st'.sIdx = false → DANGER_DISTANCE ≤ exDistsDanger st'.dIdx →
        waitLoop exNoStops exDistsDanger (fuel' + 1) st'
          = ([], ⟨st'.sIdx + 1, st'.dIdx + 1, st'.tIdx⟩, true)) ∧
     (∀ fuel' st', exNoStops st'.sIdx = false → exNoStops (st'.sIdx + 1) = false →
        exNoStops (st'.sIdx + 2) = false → DANGER_DISTANCE ≤ exDistsDanger st'.dIdx →
        exTicks st'.tIdx = true →
        (st'.sIdx + 3, st'.dIdx + 1, PAct.step)
          ∈ (patrolLoop exNoStops exDistsDanger exTicks false (fuel' + 1) st').1)) :=
  ⟨rfl, by decide, by decide,
   C5_danger_monotonicity exNoStops exDistsDanger exTicks false 7 ⟨2, 2, 2⟩
     rfl (by decide) (by decide)⟩

/-- C6: when an iteration's distance sample is invalid (`d <= 0`), the very
next hardware action is a halt - both in the walking loop and in the danger
wait sub-loop - and every forward step anywhere in the loop is justified by
its immediately preceding sample being `>= DANGER_DISTANCE`, hence valid
(`> 0`): an invalid reading is never treated as safe. -/
theorem C6_sensor_invalid_safety (stops : Nat → Bool) (dists : Nat → ℚ)
    (ticks : Nat → Bool) (sa : Bool) (fuel : Nat) (st : PSt)
    (hstop : stops st.sIdx = false)
    (hinv : dists st.dIdx ≤ 0) :
    (patrolLoop stops dists ticks sa (fuel + 1) st).1.head?
      = some (st.sIdx + 1, st.dIdx + 1, PAct.halt) ∧
    (waitLoop stops dists (fuel + 1) st).1.head?
      = some (st.sIdx + 1, st.dIdx + 1, PAct.halt) ∧
    (∀ fuel' st' ev, ev ∈ (patrolLoop stops dists ticks sa fuel' st').1 →
       ev.2.2 = PAct.step → 1 ≤ ev.2.1 ∧ 0 < dists (ev.2.1 - 1)) := by
  refine ⟨?_, ?_, ?_⟩
  · simp [patrolLoop, hstop, hinv]
  · simp [waitLoop, hstop, hinv]
  · intro fuel' st' ev hmem hstep
    obtain ⟨ha, hb⟩ := patrolLoop_step_safe stops dists ticks sa fuel' st' ev hmem hstep
    exact ⟨ha, lt_of_lt_of_le (by norm_num [DANGER_DISTANCE]) hb⟩

/-- Distance stream for the C6 scenario: an invalid reading at index 1. -/
def exDistsInvalid : Nat → ℚ := fun k => [40, 0, -1, 30].getD k 100

theorem C6_witness :
    exNoStops 1 = false ∧ exDistsInvalid 1 ≤ 0 ∧
    ((patrolLoop exNoStops exDistsInvalid exTicks true 6 ⟨1, 1, 1⟩).1.head?
       = some (2, 2, PAct.halt) ∧
     (waitLoop exNoStops exDistsInvalid 6 ⟨1, 1, 1⟩).1.head?
       = some (2, 2, PAct.halt) ∧
     (∀ fuel' st' ev, ev ∈ (patrolLoop exNoStops exDistsInvalid exTicks true fuel' st').1 →
        ev.2.2 = PAct.step → 1 ≤ ev.2.1 ∧ 0 < exDistsInvalid (ev.2.1 - 1))) :=
  ⟨rfl, by decide,
   C6_sensor_invalid_safety exNoStops exDistsInvalid exTicks true 5 ⟨1, 1, 1⟩
     rfl (by decide)⟩

/-! ## Command coordinator (`pidog_inneo.py`, `main`, lines 486-546)

The command-dispatch loop is embedded as the sequence of actuator calls one
command triggers.  Preset action names and commands are finite enumerations in
the source, so they are enumerations here.  `fails name` tells whether
`dog.do_action(name, ...)` raises for that preset (the `safe_lie_down`
fallback chain probes `lie`, `lie_down`, `rest` in order); `wait_all_done` and
`time.sleep` are modelled as non-raising, which matches their use in the
source.  The `paw` entry models the trace of `angewinkelt.run` up to and
including its initial `safe_sit` (its first actuator commands), which is all
the dispatch-ordering claims inspect. -/

inductive ActName
  | sit
  | stand
  | lie
  | lie_down
  | rest
  | forward
deriving DecidableEq, Repr

inductive Ev
  | setStopFlag
  | bodyStop
  | headSuppressEv (seconds : ℚ)
  | headMove (pose : Pose) (speed : Option Int)
  | doAction (name : ActName) (speed : Int)
  | waitAllDone
  | sleepEv (seconds : ℚ)
deriving DecidableEq, Repr

inductive PoseSt
  | unknown
  | sitP
  | standP
  | lieP
deriving DecidableEq, Repr

inductive Cmd
  | sit
  | stand
  | lie
  | hinlegen
  | lieDown
  | paw
  | walk
  | stop
deriving DecidableEq, Repr

def SIT_SPEED_1 : Int := 28

def SIT_SPEED_2 : Int := 38

def SIT_PAUSE : ℚ := 1/5

def STAND_SPEED : Int := 35

def STAND_FROM_SIT_SPEED_1 : Int := 22

def STAND_FROM_SIT_SPEED_2 : Int := 32

def STAND_FROM_SIT_PAUSE : ℚ := 1/4

def LIE_SPEED_1 : Int := 28

def LIE_SPEED_2 : Int := 38

def LIE_PAUSE : ℚ := 1/5

/-- `safe_sit` (lines 223-260): suppress, briefly "un-suppress" for the head
tilt, re-suppress, two sit phases, trailing suppression. -/
def safe_sit_tr : List Ev :=
  [.headSuppressEv HEAD_SUPPRESS_AFTER_BODY_ACTION_SIT,
   .headSuppressEv 0,
   .headMove SIT_HEAD_TILT_POSE (some SIT_HEAD_TILT_SPEED),
   .headSuppressEv HEAD_SUPPRESS_AFTER_BODY_ACTION_SIT,
   .doAction .sit SIT_SPEED_1, .waitAllDone,
   .headSuppressEv HEAD_SUPPRESS_AFTER_BODY_ACTION_SIT,
   .sleepEv SIT_PAUSE,
   .headSuppressEv HEAD_SUPPRESS_AFTER_BODY_ACTION_SIT,
   .doAction .sit SIT_SPEED_2, .waitAllDone,
   .headSuppressEv (2/5)]

/-- `safe_stand` (lines 208-220). -/
def safe_stand_tr (fromSit : Bool) : List Ev :=
  .headSuppressEv HEAD_SUPPRESS_AFTER_BODY_ACTION ::
    (if fromSit then
      [.doAction .stand STAND_FROM_SIT_SPEED_1, .waitAllDone,
       .sleepEv STAND_FROM_SIT_PAUSE,
       .doAction .stand STAND_FROM_SIT_SPEED_2, .waitAllDone]
    else [.doAction .stand STAND_SPEED, .waitAllDone])

/-- The `for action in ("lie", "lie_down", "rest")` fallback chain of
`safe_lie_down` (lines 266-276); the Bool tells whether one name succeeded. -/
def lie_attempts (fails : ActName → Bool) : List ActName → List Ev × Bool
  | [] => ([], false)
  | n :: rest =>
    if fails n then
      let r := lie_attempts fails rest
      (.doAction n LIE_SPEED_1 :: r.1, r.2)
    else
      ([.doAction n LIE_SPEED_1, .waitAllDone, .sleepEv LIE_PAUSE,
        .doAction n LIE_SPEED_2, .waitAllDone], true)

/-- `safe_lie_down` (lines 263-278). -/
def safe_lie_tr (fails : ActName → Bool) : List Ev × Bool :=
  let r := lie_attempts fails [ActName.lie, ActName.lie_down, ActName.rest]
  (.headSuppressEv HEAD_SUPPRESS_AFTER_BODY_ACTION :: r.1, r.2)

/-- `hinlegen.run` (hinlegen.py lines 7-24), the fallback used when
`safe_lie_down` raises. -/
def hinlegen_run_tr : List Ev :=
  [.bodyStop, .doAction .lie 60, .waitAllDone, .sleepEv (1/2)]

/-- Initial segment of `angewinkelt.run` (its local `safe_sit`, angewinkelt.py
lines 50-56), through which the `paw` command issues its first actuator
commands. -/
def paw_run_prefix_tr : List Ev :=
  [.doAction .sit SIT_SPEED_1, .waitAllDone, .sleepEv SIT_PAUSE,
   .doAction .sit SIT_SPEED_2, .waitAllDone]

/-- `stop_walk` (lines 472-477): set the patrol stop flag, then an immediate
hardware halt. -/
def stop_walk_tr : List Ev := [.setStopFlag, .bodyStop]

/-- The actuator calls of one command handled by the `main` loop
(lines 495-546). -/
def dispatchTrace (poseSt : PoseSt) (fails : ActName → Bool) : Cmd → List Ev
  | .sit => stop_walk_tr ++ safe_sit_tr
  | .stand => stop_walk_tr ++ safe_stand_tr (poseSt = PoseSt.sitP)
  | .lie | .hinlegen | .lieDown =>
    stop_walk_tr ++ (safe_lie_tr fails).1
      ++ (if (safe_lie_tr fails).2 then [] else hinlegen_run_tr)
  | .paw => stop_walk_tr ++ paw_run_prefix_tr
  | .walk => []
  | .stop => stop_walk_tr

/-- A pose-transition command: a `do_action` call. -/
def Ev.isPose : Ev → Bool
  | .doAction _ _ => true
  | _ => false

/-- A bounded block until the actuator reports idle: `wait_all_done`. -/
def Ev.isIdleWait : Ev → Bool
  | .waitAllDone => true
  | _ => false

/-- C7 counterexample: the claim says the coordinator blocks until the
actuator reports idle before issuing the new pose command.  For the `sit`
command the dispatch trace contains pose-transition commands, yet the prefix
before the first one contains no `wait_all_done`: `stop_walk` sets the flag
and calls `body_stop`, and `safe_sit` starts its `do_action("sit", ...)`
without any idle wait in between. -/
theorem C7_counterexample :
    (dispatchTrace PoseSt.standP (fun _ => false) Cmd.sit).any Ev.isPose = true ∧
    ((dispatchTrace PoseSt.standP (fun _ => false) Cmd.sit).takeWhile
        (fun e => !(Ev.isPose e))).any Ev.isIdleWait = false := by
  decide

/-- C7 (amended): for every dispatched command other than `walk` (sit, stand,
lie in all three spellings, paw), the coordinator first sets the patrol stop
flag and issues a hardware halt, and only then issues the new pose-transition
command; it does not wait for the actuator to report idle in between. -/
theorem C7_stop_before_pose (ps : PoseSt) (fails : ActName → Bool) (cmd : Cmd)
    (hc : cmd ∈ [Cmd.sit, Cmd.stand, Cmd.lie, Cmd.hinlegen, Cmd.lieDown, Cmd.paw]) :
    (dispatchTrace ps fails cmd).take 2 = [Ev.setStopFlag, Ev.bodyStop] ∧
    (dispatchTrace ps fails cmd).any Ev.isPose = true ∧
    ((dispatchTrace ps fails cmd).takeWhile
        (fun e => !(Ev.isPose e))).any Ev.isIdleWait = false := by
  fin_cases hc
  · exact ⟨rfl, rfl, rfl⟩
  · cases ps <;> exact ⟨rfl, rfl, rfl⟩
  · by_cases f1 : fails ActName.lie <;>
      refine ⟨rfl, ?_, ?_⟩ <;>
      simp [dispatchTrace, safe_lie_tr, lie_attempts, f1, stop_walk_tr,
        Ev.isPose, Ev.isIdleWait]
  · by_cases f1 : fails ActName.lie <;>
      refine ⟨rfl, ?_, ?_⟩ <;>
      simp [dispatchTrace, safe_lie_tr, lie_attempts, f1, stop_walk_tr,
        Ev.isPose, Ev.isIdleWait]
  · by_cases f1 : fails ActName.lie <;>
      refine ⟨rfl, ?_, ?_⟩ <;>
      simp [dispatchTrace, safe_lie_tr, lie_attempts, f1, stop_walk_tr,
        Ev.isPose, Ev.isIdleWait]
  · exact ⟨rfl, rfl, rfl⟩

theorem C7_witness :
    Cmd.sit ∈ [Cmd.sit, Cmd.stand, Cmd.lie, Cmd.hinlegen, Cmd.lieDown, Cmd.paw] ∧
    ((dispatchTrace PoseSt.standP (fun _ => false) Cmd.sit).take 2
       = [Ev.setStopFlag, Ev.bodyStop] ∧
     (dispatchTrace PoseSt.standP (fun _ => false) Cmd.sit).any Ev.isPose = true ∧
     ((dispatchTrace PoseSt.standP (fun _ => false) Cmd.sit).takeWhile
         (fun e => !(Ev.isPose e))).any Ev.isIdleWait = false) :=
  ⟨by decide,
   C7_stop_before_pose PoseSt.standP (fun _ => false) Cmd.sit (by decide)⟩

/-! ## Filtered distance read (`angewinkelt.py`, lines 35-42) -/

/-- Python `statistics.median`: sort ascending; middle element for odd length,
mean of the two middle elements for even length (callers guard against the
empty list, where the default is never reached). -/
def pymedian (l : List ℚ) : ℚ :=
  let s := List.insertionSort (· ≤ ·) l
  if l.length % 2 = 1 then s.getD (l.length / 2) 0
  else (s.getD (l.length / 2 - 1) 0 + s.getD (l.length / 2) 0) / 2

/-- `get_distance_filtered(dog, samples, delay)`: the loop appends each raw
read `d` with `0 < d < 250` to `vals` and returns
`statistics.median(vals) if vals else None`.  `reads` is the list of raw
`dog.read_distance()` results (`samples` of them). -/
def get_distance_filtered (reads : List ℚ) : Option ℚ :=
  let vals := reads.foldl (fun acc d => if 0 < d ∧ d < 250 then acc ++ [d] else acc) []
  if vals.isEmpty then none else some (pymedian vals)

/-- Modelled from the spec: `read_distance_filtered` as the spec describes it,
with the plausible range `(0, 250]` closed at 250 (the code itself uses
`0 < d < 250`). -/
def spec_distance_filtered (reads : List ℚ) : Option ℚ :=
  let vals := reads.filter (fun d => decide (0 < d ∧ d ≤ 250))
  if vals.isEmpty then none else some (pymedian vals)

/-- Auxiliary: the accumulation loop of `get_distance_filtered` builds exactly
the in-range sublist. -/
theorem vals_eq_filter (reads : List ℚ) :
    ∀ acc : List ℚ,
      reads.foldl (fun acc d => if 0 < d ∧ d < 250 then acc ++ [d] else acc) acc
        = acc ++ reads.filter (fun d => decide (0 < d ∧ d < 250)) := by
  induction reads with
  | nil => intro acc; simp
  | cons x xs ih =>
    intro acc
    by_cases hx : 0 < x ∧ x < 250 <;>
      simp [List.filter_cons, hx, ih, List.append_assoc]

/-- C8 counterexample: seven raw reads of exactly 250 cm.  The spec range
`(0, 250]` keeps them all and yields median 250; the code's strict `d < 250`
discards them all and returns the no-data sentinel. -/
theorem C8_counterexample :
    get_distance_filtered (List.replicate 7 250) = none ∧
    spec_distance_filtered (List.replicate 7 250) = some 250 ∧
    (none : Option ℚ) ≠ some 250 := by
  refine ⟨by decide, by decide, by decide⟩

/-- C8 (amended): the result of `get_distance_filtered` is the Python median
of exactly those raw readings inside the open range `(0, 250)` - `none` when
every reading was discarded - and a reading outside that range never
influences the result. -/
theorem C8_filtered_median (reads : List ℚ) :
    get_distance_filtered reads
      = (if (reads.filter (fun d => decide (0 < d ∧ d < 250))).isEmpty then none
         else some (pymedian (reads.filter (fun d => decide (0 < d ∧ d < 250))))) ∧
    (∀ xs ys : List ℚ, ∀ d : ℚ, ¬ (0 < d ∧ d < 250) →
       get_distance_filtered (xs ++ d :: ys) = get_distance_filtered (xs ++ ys)) := by
  constructor
  · simp [get_distance_filtered, vals_eq_filter]
  · intro xs ys d hd
    simp [get_distance_filtered, vals_eq_filter, List.filter_append,
      List.filter_cons, hd]

theorem C8_witness :
    (get_distance_filtered [40, 300, 15, 0, 22]
       = (if (([40, 300, 15, 0, 22] : List ℚ).filter
               (fun d => decide (0 < d ∧ d < 250))).isEmpty then none
          else some (pymedian (([40, 300, 15, 0, 22] : List ℚ).filter
               (fun d => decide (0 < d ∧ d < 250)))))) ∧
    ¬ ((0:ℚ) < 300 ∧ (300:ℚ) < 250) ∧
    get_distance_filtered ([40] ++ (300:ℚ) :: [15, 22])
      = get_distance_filtered ([40] ++ [15, 22]) :=
  ⟨(C8_filtered_median [40, 300, 15, 0, 22]).1,
   by decide,
   (C8_filtered_median [40, 300, 15, 0, 22]).2 [40] [15, 22] 300 (by decide)⟩
